import Mathlib

/-!
Shallow embedding of `src/amazon_rss.go` (package `feeds`): the Amazon RSS
dialect adapter.  Go pointers become `Option`; a Go nil-pointer dereference
is modelled by the mapping returning `none`.  Go `time.Time` is modelled by
a wrapper around `Nat` where the zero value means "absent".  The RFC-1123Z
formatting routine of the standard library is left abstract: every
definition and theorem is parametric in the format function
`format : GoTime → String`.
-/

namespace feeds

/-- Modelled from the spec: Go `time.Time`; the zero value means the
timestamp is absent (`IsZero`). -/
structure GoTime where
  val : Nat
deriving DecidableEq, Repr

/-- Go `time.Time.IsZero`. -/
def GoTime.isZero (t : GoTime) : Bool := t.val == 0

/-- Modelled from the spec: the shared date-formatting helper
`anyTimeFormat(format, dates...)` of the repository (not under `src/`):
returns the first non-zero candidate formatted with the given pattern, or
the empty string when every candidate is zero-valued.  The pattern is
abstracted into a format function. -/
def anyTimeFormat (format : GoTime → String) : List GoTime → String
  | [] => ""
  | d :: ds => if d.isZero then anyTimeFormat format ds else format d

/-- Modelled from the spec: the generic feed model's `Link` (only `Href` is
used by this core). -/
structure Link where
  Href : String
deriving DecidableEq, Repr

/-- Modelled from the spec: the generic feed model's `Author {Name, Email}`. -/
structure Author where
  Name : String
  Email : String
deriving DecidableEq, Repr

/-- Modelled from the spec: the generic feed model's
`Enclosure {Url, Type, Length}`. -/
structure Enclosure where
  Url : String
  «Type» : String
  Length : String
deriving DecidableEq, Repr

/-- Modelled from the spec: the generic feed model's
`Image {Url, Title, Link, Width, Height}`. -/
structure Image where
  Url : String
  Title : String
  Link : String
  Width : Int
  Height : Int
deriving DecidableEq, Repr

/-- Modelled from the spec: the generic feed model's `Item`.  Pointer-valued
fields (`Link`, `Source`, `Author`, `Enclosure`) become `Option`. -/
structure Item where
  Title : String := ""
  Link : Option feeds.Link := none
  Description : String := ""
  Id : String := ""
  Content : String := ""
  Source : Option feeds.Link := none
  Author : Option feeds.Author := none
  Enclosure : Option feeds.Enclosure := none
  Created : GoTime := ⟨0⟩
  Updated : GoTime := ⟨0⟩
deriving DecidableEq, Repr

/-- Modelled from the spec: the generic feed model's `Feed`. -/
structure Feed where
  Title : String := ""
  Link : Option feeds.Link := none
  Description : String := ""
  Author : Option feeds.Author := none
  Copyright : String := ""
  Created : GoTime := ⟨0⟩
  Updated : GoTime := ⟨0⟩
  Image : Option feeds.Image := none
  Items : List Item := []
deriving DecidableEq, Repr

/-- Modelled from the spec: output `RssContent` substructure (holds the raw
content string). -/
structure RssContent where
  Content : String
deriving DecidableEq, Repr

/-- Modelled from the spec: output `RssEnclosure` substructure. -/
structure RssEnclosure where
  Url : String
  «Type» : String
  Length : String
deriving DecidableEq, Repr

/-- Modelled from the spec: output `RssImage` substructure. -/
structure RssImage where
  Url : String
  Title : String
  Link : String
  Width : Int
  Height : Int
deriving DecidableEq, Repr

/-- Modelled from the spec: output `RssTextInput` substructure; this mapping
never populates it, so its fields are irrelevant here. -/
structure RssTextInput where
  Title : String := ""
deriving DecidableEq, Repr

/-- `AmazonProduct` (src/amazon_rss.go lines 71-76). -/
structure AmazonProduct where
  URL : String := ""
  Headline : String := ""
  Award : String := ""
  Summary : String := ""
deriving DecidableEq, Repr

/-- `AmazonRssItem` (src/amazon_rss.go lines 50-68).  The `xml.Name`
serializer metadata field is omitted; defaults are the Go zero values. -/
structure AmazonRssItem where
  Title : String := ""
  Link : String := ""
  Description : String := ""
  Content : Option RssContent := none
  Author : String := ""
  Category : String := ""
  Comments : String := ""
  Enclosure : Option RssEnclosure := none
  Guid : String := ""
  PubDate : String := ""
  Source : String := ""
  Creator : String := ""
  HeroImage : String := ""
  IntroText : String := ""
  IndexContent : String := ""
  Products : List AmazonProduct := []
deriving DecidableEq, Repr

/-- `AmazonRssFeed` channel (src/amazon_rss.go lines 24-47); defaults are
the Go zero values.  `AmznRssVersion` is a `float32` in the source. -/
structure AmazonRssFeed where
  Title : String := ""
  Link : String := ""
  Description : String := ""
  Language : String := ""
  Copyright : String := ""
  ManagingEditor : String := ""
  WebMaster : String := ""
  PubDate : String := ""
  LastBuildDate : String := ""
  Category : String := ""
  Generator : String := ""
  Docs : String := ""
  Cloud : String := ""
  Ttl : Int := 0
  Rating : String := ""
  SkipHours : String := ""
  SkipDays : String := ""
  AmznRssVersion : Float := 0.0
  Image : Option RssImage := none
  TextInput : Option RssTextInput := none
  Items : List AmazonRssItem := []

/-- `AmazonRssFeedXml` envelope (src/amazon_rss.go lines 14-21). -/
structure AmazonRssFeedXml where
  Version : String := ""
  ContentNamespace : String := ""
  DublinCoreNamespace : String := ""
  AmazonNamespace : String := ""
  Channel : AmazonRssFeed := {}

/-- `newAmazonRssItem` (src/amazon_rss.go lines 83-110).  The unguarded Go
dereference `i.Link.Href` is modelled by matching on `i.Link`: a nil link
makes the mapping fault (`none`).  The sequence of conditional updates
mirrors the Go function body. -/
def newAmazonRssItem (format : GoTime → String) (i : Item) : Option AmazonRssItem :=
  match i.Link with
  | none => none
  | some link =>
    let item : AmazonRssItem :=
      { Title := i.Title
        Link := link.Href
        Description := i.Description
        Guid := i.Id
        PubDate := anyTimeFormat format [i.Created, i.Updated]
        HeroImage := "POST THUMBNAIL (Prefer 2x1 at least 1000px wide)"
        IntroText := "META DESCRIPTION"
        IndexContent := "True" }
    let item := if i.Content.length > 0 then
        { item with Content := some { Content := i.Content } } else item
    let item := match i.Source with
      | some s => { item with Source := s.Href }
      | none => item
    let item := match i.Enclosure with
      | some e =>
        if e.«Type» != "" && e.Length != "" then
          { item with Enclosure := some { Url := e.Url, «Type» := e.«Type», Length := e.Length } }
        else item
      | none => item
    let item := match i.Author with
      | some a => { item with Author := a.Name }
      | none => item
    some item

/-- The item loop of `AmazonRssFeed` (src/amazon_rss.go lines 140-142):
maps every generic item through `newAmazonRssItem`, in input order; a fault
on any item faults the whole mapping. -/
def mapItems (format : GoTime → String) : List Item → Option (List AmazonRssItem)
  | [] => some []
  | i :: rest =>
    match newAmazonRssItem format i, mapItems format rest with
    | some it, some rest2 => some (it :: rest2)
    | _, _ => none

/-- Method `AmazonRssFeed` on `*AmazonRss` (src/amazon_rss.go lines
113-144).  `AmazonRss` embeds `*Feed`, so the receiver is modelled as the
feed itself.  The unguarded Go dereference `r.Link.Href` is modelled by the
match on `r.Link`. -/
def AmazonRss.AmazonRssFeed (format : GoTime → String) (r : Feed) : Option AmazonRssFeed :=
  let pub := anyTimeFormat format [r.Created, r.Updated]
  let build := anyTimeFormat format [r.Updated]
  let author := match r.Author with
    | none => ""
    | some a =>
      if a.Name.length > 0 then a.Email ++ " (" ++ a.Name ++ ")" else a.Email
  let image : Option RssImage := match r.Image with
    | none => none
    | some im =>
      some { Url := im.Url, Title := im.Title, Link := im.Link, Width := im.Width, Height := im.Height }
  match r.Link, mapItems format r.Items with
  | some link, some items =>
    some { Title := r.Title
           Link := link.Href
           Description := r.Description
           ManagingEditor := author
           PubDate := pub
           LastBuildDate := build
           Copyright := r.Copyright
           Image := image
           AmznRssVersion := 1.0
           Items := items }
  | _, _ => none

/-- Method `FeedXml` on `*AmazonRssFeed` (src/amazon_rss.go lines 154-162):
wraps the channel in the envelope with the constant version and namespace
strings. -/
def AmazonRssFeed.FeedXml (r : AmazonRssFeed) : AmazonRssFeedXml :=
  { Version := "2.0"
    Channel := r
    ContentNamespace := "http://purl.org/rss/1.0/modules/content/"
    DublinCoreNamespace := "http://purl.org/dc/elements/1.1/"
    AmazonNamespace := "https://amazon.com/ospublishing/1.0/" }

/-- Method `FeedXml` on `*AmazonRss` (src/amazon_rss.go lines 147-151):
builds the channel, then wraps it. -/
def AmazonRss.FeedXml (format : GoTime → String) (r : Feed) : Option AmazonRssFeedXml :=
  (AmazonRss.AmazonRssFeed format r).map AmazonRssFeed.FeedXml

/-! Concrete sample inputs used to witness the theorems below. -/

/-- A concrete format function standing in for RFC-1123Z formatting. -/
def fmt0 : GoTime → String := fun t => Nat.repr t.val

/-- A concrete enclosure with empty `Url` but non-empty `Type` and `Length`. -/
def enc0 : Enclosure := { Url := "", «Type» := "audio/mpeg", Length := "123" }

/-- A concrete generic item exercising every optional branch. -/
def item0 : Item :=
  { Title := "I1", Link := some { Href := "http://x/1" }, Description := "D1",
    Id := "id1", Content := "c", Source := some { Href := "http://s" },
    Author := some { Name := "an", Email := "ae" }, Enclosure := some enc0,
    Created := ⟨5⟩, Updated := ⟨7⟩ }

/-- The dialect item produced from `item0`. -/
def it0 : AmazonRssItem := (newAmazonRssItem fmt0 item0).getD {}

/-- A concrete generic feed containing `item0`. -/
def feed0 : Feed :=
  { Title := "T", Link := some { Href := "http://x" }, Description := "D",
    Author := some { Name := "N", Email := "E" }, Copyright := "cp",
    Created := ⟨3⟩, Updated := ⟨9⟩,
    Image := some { Url := "iu", Title := "imt", Link := "il", Width := 1, Height := 2 },
    Items := [item0] }

/-- The dialect channel produced from `feed0`. -/
def ch0 : AmazonRssFeed := (AmazonRss.AmazonRssFeed fmt0 feed0).getD {}

/-! Helper lemmas: closed forms of the two mapping functions. -/

theorem anyTimeFormat_pair (format : GoTime → String) (a b : GoTime) :
    anyTimeFormat format [a, b] =
      if a.val ≠ 0 then format a else if b.val ≠ 0 then format b else "" := by
  by_cases ha : a.val = 0 <;> by_cases hb : b.val = 0 <;>
    simp [anyTimeFormat, GoTime.isZero, ha, hb]

theorem anyTimeFormat_single (format : GoTime → String) (b : GoTime) :
    anyTimeFormat format [b] = if b.val ≠ 0 then format b else "" := by
  by_cases hb : b.val = 0 <;> simp [anyTimeFormat, GoTime.isZero, hb]

/-- Closed form of a successful run of `newAmazonRssItem`: the produced item
is the record below, with each conditional field expressed pointwise. -/
theorem newAmazonRssItem_eq_some (format : GoTime → String) (i : Item) (it : AmazonRssItem)
    (h : newAmazonRssItem format i = some it) :
    ∃ l, i.Link = some l ∧ it =
      { Title := i.Title
        Link := l.Href
        Description := i.Description
        Guid := i.Id
        PubDate := anyTimeFormat format [i.Created, i.Updated]
        HeroImage := "POST THUMBNAIL (Prefer 2x1 at least 1000px wide)"
        IntroText := "META DESCRIPTION"
        IndexContent := "True"
        Content := if i.Content.length > 0 then some { Content := i.Content } else none
        Source := (match i.Source with | some s => s.Href | none => "")
        Enclosure := (match i.Enclosure with
          | some e => if e.«Type» != "" && e.Length != "" then
              some { Url := e.Url, «Type» := e.«Type», Length := e.Length } else none
          | none => none)
        Author := (match i.Author with | some a => a.Name | none => "") } := by
  obtain ⟨Ti, Li, Di, Idi, Ci, Si, Ai, Ei, cri, upi⟩ := i
  cases Li with
  | none => simp [newAmazonRssItem] at h
  | some l =>
    refine ⟨l, rfl, ?_⟩
    simp only [newAmazonRssItem] at h
    cases Si <;> cases Ai <;> cases Ei <;>
      simp_all <;> split_ifs at h ⊢ <;> simp_all

/-- Closed form of a successful run of `AmazonRss.AmazonRssFeed`. -/
theorem amazonRssFeed_eq_some (format : GoTime → String) (r : Feed) (ch : AmazonRssFeed)
    (h : AmazonRss.AmazonRssFeed format r = some ch) :
    ∃ l items, r.Link = some l ∧ mapItems format r.Items = some items ∧ ch =
      { Title := r.Title
        Link := l.Href
        Description := r.Description
        ManagingEditor := (match r.Author with
          | none => ""
          | some a =>
            if a.Name.length > 0 then a.Email ++ " (" ++ a.Name ++ ")" else a.Email)
        PubDate := anyTimeFormat format [r.Created, r.Updated]
        LastBuildDate := anyTimeFormat format [r.Updated]
        Copyright := r.Copyright
        Image := (match r.Image with
          | none => none
          | some im =>
            some { Url := im.Url, Title := im.Title, Link := im.Link,
                   Width := im.Width, Height := im.Height })
        AmznRssVersion := 1.0
        Items := items } := by
  unfold AmazonRss.AmazonRssFeed at h
  cases hl : r.Link with
  | none => rw [hl] at h; simp at h
  | some l =>
    cases hm : mapItems format r.Items with
    | none => rw [hl, hm] at h; simp at h
    | some items =>
      rw [hl, hm] at h
      simp at h
      exact ⟨l, items, rfl, rfl, h.symm⟩

/-- Every element of a successful `mapItems` run comes from mapping some
input item. -/
theorem mapItems_mem (format : GoTime → String) :
    ∀ (l : List Item) (l2 : List AmazonRssItem), mapItems format l = some l2 →
      ∀ it ∈ l2, ∃ i ∈ l, newAmazonRssItem format i = some it := by
  intro l
  induction l with
  | nil =>
    intro l2 h it hit
    simp [mapItems] at h
    subst h
    simp at hit
  | cons a as ih =>
    intro l2 h it hit
    cases ha : newAmazonRssItem format a with
    | none => simp [mapItems, ha] at h
    | some b =>
      cases hrest : mapItems format as with
      | none => simp [mapItems, ha, hrest] at h
      | some bs =>
        simp [mapItems, ha, hrest] at h
        subst h
        rcases List.mem_cons.mp hit with hb | hb
        · exact ⟨a, List.mem_cons_self a as, hb ▸ ha⟩
        · obtain ⟨i, hi, hsome⟩ := ih bs hrest it hb
          exact ⟨i, List.mem_cons_of_mem a hi, hsome⟩

/-- A successful `mapItems` run produces one output item per input item. -/
theorem mapItems_length (format : GoTime → String) :
    ∀ (l : List Item) (l2 : List AmazonRssItem), mapItems format l = some l2 →
      l2.length = l.length := by
  intro l
  induction l with
  | nil =>
    intro l2 h
    simp [mapItems] at h
    subst h
    rfl
  | cons a as ih =>
    intro l2 h
    cases ha : newAmazonRssItem format a with
    | none => simp [mapItems, ha] at h
    | some b =>
      cases hrest : mapItems format as with
      | none => simp [mapItems, ha, hrest] at h
      | some bs =>
        simp [mapItems, ha, hrest] at h
        subst h
        simp [ih bs hrest]

/-- The per-item mapping succeeds exactly when the item's link is non-nil. -/
theorem newAmazonRssItem_isSome (format : GoTime → String) (i : Item) :
    (newAmazonRssItem format i).isSome = i.Link.isSome := by
  cases hl : i.Link <;> simp [newAmazonRssItem, hl]

/-- Mapping a list of items succeeds when every item's link is non-nil. -/
theorem mapItems_isSome (format : GoTime → String) :
    ∀ l : List Item, (∀ i ∈ l, i.Link.isSome = true) →
      (mapItems format l).isSome = true := by
  intro l
  induction l with
  | nil => intro _; simp [mapItems]
  | cons a as ih =>
    intro hall
    have ha : (newAmazonRssItem format a).isSome = true := by
      rw [newAmazonRssItem_isSome]
      exact hall a (List.mem_cons_self a as)
    have has : (mapItems format as).isSome = true :=
      ih fun i hi => hall i (List.mem_cons_of_mem a hi)
    obtain ⟨b, hb⟩ := Option.isSome_iff_exists.mp ha
    obtain ⟨bs, hbs⟩ := Option.isSome_iff_exists.mp has
    simp [mapItems, hb, hbs]

/-- A string has positive length exactly when it is non-empty (`len(s) > 0`
in Go versus `s ≠ ""`). -/
theorem string_length_pos (s : String) : 0 < s.length ↔ s ≠ "" := by
  cases s with
  | mk data =>
    cases data with
    | nil => decide
    | cons c cs => simp [String.length, String.ext_iff]

/-! The claims. -/

/-- C1: the channel's PubDate is the formatting of Created if non-zero, else
of Updated if non-zero, else empty; the channel's LastBuildDate is the
formatting of Updated if non-zero, else empty, with no fallback to Created;
an item's PubDate follows the same Created-then-Updated fallback. -/
theorem pubDate_lastBuildDate_rule (format : GoTime → String) :
    (∀ (r : Feed) (ch : AmazonRssFeed), AmazonRss.AmazonRssFeed format r = some ch →
      ch.PubDate = (if r.Created.val ≠ 0 then format r.Created
        else if r.Updated.val ≠ 0 then format r.Updated else "")
      ∧ ch.LastBuildDate = (if r.Updated.val ≠ 0 then format r.Updated else ""))
    ∧ (∀ (i : Item) (it : AmazonRssItem), newAmazonRssItem format i = some it →
      it.PubDate = (if i.Created.val ≠ 0 then format i.Created
        else if i.Updated.val ≠ 0 then format i.Updated else "")) := by
  constructor
  · intro r ch h
    obtain ⟨l, items, _, _, rfl⟩ := amazonRssFeed_eq_some format r ch h
    exact ⟨anyTimeFormat_pair format r.Created r.Updated,
           anyTimeFormat_single format r.Updated⟩
  · intro i it h
    obtain ⟨l, _, rfl⟩ := newAmazonRssItem_eq_some format i it h
    exact anyTimeFormat_pair format i.Created i.Updated

/-- C1 witness: at `feed0` both Created (3) and Updated (9) are non-zero, so
PubDate formats Created while LastBuildDate formats Updated. -/
theorem pubDate_lastBuildDate_rule_witness :
    ch0.PubDate = (if feed0.Created.val ≠ 0 then fmt0 feed0.Created
      else if feed0.Updated.val ≠ 0 then fmt0 feed0.Updated else "")
    ∧ ch0.LastBuildDate = (if feed0.Updated.val ≠ 0 then fmt0 feed0.Updated else "") :=
  (pubDate_lastBuildDate_rule fmt0).1 feed0 ch0 rfl

/-- C2: an output enclosure exists iff the source enclosure is present with
non-empty Type and Length (Url not gating), and when it exists its fields
are copied verbatim. -/
theorem enclosure_gating (format : GoTime → String) (i : Item) (it : AmazonRssItem)
    (h : newAmazonRssItem format i = some it) :
    (it.Enclosure.isSome = true ↔
      ∃ e, i.Enclosure = some e ∧ e.«Type» ≠ "" ∧ e.Length ≠ "")
    ∧ ∀ e, i.Enclosure = some e → e.«Type» ≠ "" → e.Length ≠ "" →
        it.Enclosure = some { Url := e.Url, «Type» := e.«Type», Length := e.Length } := by
  obtain ⟨l, hl, rfl⟩ := newAmazonRssItem_eq_some format i it h
  constructor
  · cases hE : i.Enclosure with
    | none => simp [hE]
    | some e =>
      by_cases ht : e.«Type» = "" <;> by_cases hn : e.Length = "" <;>
        simp [hE, ht, hn]
  · intro e hE ht hn
    simp [hE, ht, hn]

/-- C2 witness: `item0`'s enclosure has empty Url but non-empty Type and
Length, and is still constructed with fields copied verbatim. -/
theorem enclosure_gating_witness :
    it0.Enclosure = some { Url := "", «Type» := "audio/mpeg", Length := "123" } :=
  (enclosure_gating fmt0 item0 it0 rfl).2 enc0 rfl (by decide) (by decide)

/-- C3: ManagingEditor is the bare email for an author with empty name,
`"email (name)"` for a non-empty name, and empty for a nil author. -/
theorem managingEditor_rule (format : GoTime → String) (r : Feed) (ch : AmazonRssFeed)
    (h : AmazonRss.AmazonRssFeed format r = some ch) :
    (∀ a, r.Author = some a → a.Name = "" → ch.ManagingEditor = a.Email)
    ∧ (∀ a, r.Author = some a → a.Name ≠ "" →
        ch.ManagingEditor = a.Email ++ " (" ++ a.Name ++ ")")
    ∧ (r.Author = none → ch.ManagingEditor = "") := by
  obtain ⟨l, items, _, _, rfl⟩ := amazonRssFeed_eq_some format r ch h
  refine ⟨?_, ?_, ?_⟩
  · intro a ha hn
    simp [ha, hn]
  · intro a ha hn
    have hp : 0 < a.Name.length := (string_length_pos a.Name).mpr hn
    simp [ha, hp]
  · intro ha
    simp [ha]

/-- C3 witness: `feed0`'s author has non-empty name, so ManagingEditor is
`"E (N)"`. -/
theorem managingEditor_rule_witness :
    ch0.ManagingEditor = "E" ++ " (" ++ "N" ++ ")" :=
  (managingEditor_rule fmt0 feed0 ch0 rfl).2.1 { Name := "N", Email := "E" } rfl (by decide)

/-- C4: every produced item carries the three fixed vendor placeholder
strings and an empty vendor product collection, regardless of input. -/
theorem vendor_placeholders (format : GoTime → String) (i : Item) (it : AmazonRssItem)
    (h : newAmazonRssItem format i = some it) :
    it.HeroImage = "POST THUMBNAIL (Prefer 2x1 at least 1000px wide)"
    ∧ it.IntroText = "META DESCRIPTION"
    ∧ it.IndexContent = "True"
    ∧ it.Products = [] := by
  obtain ⟨l, _, rfl⟩ := newAmazonRssItem_eq_some format i it h
  exact ⟨rfl, rfl, rfl, rfl⟩

/-- C4 witness: the placeholders at `item0`. -/
theorem vendor_placeholders_witness :
    it0.HeroImage = "POST THUMBNAIL (Prefer 2x1 at least 1000px wide)"
    ∧ it0.IntroText = "META DESCRIPTION"
    ∧ it0.IndexContent = "True"
    ∧ it0.Products = [] :=
  vendor_placeholders fmt0 item0 it0 rfl

/-- C5: empty source content yields no Content substructure; non-empty
content yields a Content substructure holding the source string verbatim. -/
theorem content_gating (format : GoTime → String) (i : Item) (it : AmazonRssItem)
    (h : newAmazonRssItem format i = some it) :
    (i.Content = "" → it.Content = none)
    ∧ (i.Content ≠ "" → it.Content = some { Content := i.Content }) := by
  obtain ⟨l, _, rfl⟩ := newAmazonRssItem_eq_some format i it h
  constructor
  · intro hc
    simp [hc]
  · intro hc
    have hp : 0 < i.Content.length := (string_length_pos i.Content).mpr hc
    simp [hp]

/-- C5 witness: `item0` has content `"c"`, so the Content substructure is
present and verbatim. -/
theorem content_gating_witness : it0.Content = some { Content := "c" } :=
  (content_gating fmt0 item0 it0 rfl).2 (by decide)

/-- C6: the channel copies Title, Link.Href, Description and Copyright
verbatim, sets AmznRssVersion to 1.0, copies the Image field-for-field when
present (nil otherwise), and its Items are exactly the per-item mapping of
the input items in input order. -/
theorem channel_mapping (format : GoTime → String) (r : Feed) (ch : AmazonRssFeed)
    (h : AmazonRss.AmazonRssFeed format r = some ch) :
    ch.Title = r.Title
    ∧ (∀ l, r.Link = some l → ch.Link = l.Href)
    ∧ ch.Description = r.Description
    ∧ ch.AmznRssVersion = 1.0
    ∧ ch.Copyright = r.Copyright
    ∧ (∀ im, r.Image = some im →
        ch.Image = some { Url := im.Url, Title := im.Title, Link := im.Link,
                          Width := im.Width, Height := im.Height })
    ∧ (r.Image = none → ch.Image = none)
    ∧ mapItems format r.Items = some ch.Items
    ∧ ch.Items.length = r.Items.length := by
  obtain ⟨l, items, hl, hm, rfl⟩ := amazonRssFeed_eq_some format r ch h
  refine ⟨rfl, ?_, rfl, rfl, rfl, ?_, ?_, hm, ?_⟩
  · intro l2 hl2
    rw [hl] at hl2
    cases hl2
    rfl
  · intro im him
    simp [him]
  · intro him
    simp [him]
  · exact mapItems_length format r.Items items hm

/-- C6 witness: the channel built from `feed0`. -/
theorem channel_mapping_witness :
    ch0.Title = "T" ∧ ch0.Link = "http://x" ∧ ch0.AmznRssVersion = 1.0
    ∧ ch0.Image = some { Url := "iu", Title := "imt", Link := "il", Width := 1, Height := 2 }
    ∧ mapItems fmt0 feed0.Items = some ch0.Items := by
  obtain ⟨h1, h2, _, h4, _, h6, _, h8, _⟩ := channel_mapping fmt0 feed0 ch0 rfl
  exact ⟨h1, h2 { Href := "http://x" } rfl, h4,
         h6 { Url := "iu", Title := "imt", Link := "il", Width := 1, Height := 2 } rfl, h8⟩

/-- C7: the item's Guid is the input Id verbatim; Source is Source.Href when
present, else empty; Author is the bare Author.Name when present, else
empty. -/
theorem item_guid_source_author (format : GoTime → String) (i : Item) (it : AmazonRssItem)
    (h : newAmazonRssItem format i = some it) :
    it.Guid = i.Id
    ∧ (∀ s, i.Source = some s → it.Source = s.Href)
    ∧ (i.Source = none → it.Source = "")
    ∧ (∀ a, i.Author = some a → it.Author = a.Name)
    ∧ (i.Author = none → it.Author = "") := by
  obtain ⟨l, _, rfl⟩ := newAmazonRssItem_eq_some format i it h
  refine ⟨rfl, ?_, ?_, ?_, ?_⟩
  · intro s hs
    simp [hs]
  · intro hs
    simp [hs]
  · intro a ha
    simp [ha]
  · intro ha
    simp [ha]

/-- C7 witness: Guid, Source and Author of the item built from `item0`. -/
theorem item_guid_source_author_witness :
    it0.Guid = "id1" ∧ it0.Source = "http://s" ∧ it0.Author = "an" := by
  obtain ⟨h1, h2, _, h4, _⟩ := item_guid_source_author fmt0 item0 it0 rfl
  exact ⟨h1, h2 { Href := "http://s" } rfl, h4 { Name := "an", Email := "ae" } rfl⟩

/-- C8: the envelope built by `FeedXml` on a channel has Version "2.0", the
three constant namespace URIs, and holds the input channel itself
unchanged. -/
theorem feedXml_envelope (r : AmazonRssFeed) :
    (AmazonRssFeed.FeedXml r).Version = "2.0"
    ∧ (AmazonRssFeed.FeedXml r).ContentNamespace = "http://purl.org/rss/1.0/modules/content/"
    ∧ (AmazonRssFeed.FeedXml r).DublinCoreNamespace = "http://purl.org/dc/elements/1.1/"
    ∧ (AmazonRssFeed.FeedXml r).AmazonNamespace = "https://amazon.com/ospublishing/1.0/"
    ∧ (AmazonRssFeed.FeedXml r).Channel = r :=
  ⟨rfl, rfl, rfl, rfl, rfl⟩

/-- C9: the per-item mapping succeeds exactly when the item's Link is
non-nil, and the whole-feed mapping succeeds whenever the feed's Link and
every item's Link are non-nil: absence of any other optional substructure
cannot fault. -/
theorem no_nil_pointer_fault (format : GoTime → String) :
    (∀ i : Item, (newAmazonRssItem format i).isSome = i.Link.isSome)
    ∧ (∀ r : Feed, r.Link.isSome = true → (∀ i ∈ r.Items, i.Link.isSome = true) →
        (AmazonRss.AmazonRssFeed format r).isSome = true) := by
  constructor
  · exact newAmazonRssItem_isSome format
  · intro r hr hall
    obtain ⟨l, hl⟩ := Option.isSome_iff_exists.mp hr
    obtain ⟨items, hm⟩ := Option.isSome_iff_exists.mp (mapItems_isSome format r.Items hall)
    simp [AmazonRss.AmazonRssFeed, hl, hm]

/-- C9 witness: `feed0` and all its items have non-nil links, so the
mapping succeeds. -/
theorem no_nil_pointer_fault_witness :
    (AmazonRss.AmazonRssFeed fmt0 feed0).isSome = true :=
  (no_nil_pointer_fault fmt0).2 feed0 (by decide) (by decide)

/-- C10: the mapping never populates the channel's Language, WebMaster,
Category, Generator, Docs, Cloud, Ttl, Rating, SkipHours, SkipDays or
TextInput, and never populates an item's Category, Comments or Creator. -/
theorem unpopulated_output_fields (format : GoTime → String) (r : Feed) (ch : AmazonRssFeed)
    (h : AmazonRss.AmazonRssFeed format r = some ch) :
    ch.Language = "" ∧ ch.WebMaster = "" ∧ ch.Category = "" ∧ ch.Generator = ""
    ∧ ch.Docs = "" ∧ ch.Cloud = "" ∧ ch.Ttl = 0 ∧ ch.Rating = ""
    ∧ ch.SkipHours = "" ∧ ch.SkipDays = "" ∧ ch.TextInput = none
    ∧ ∀ it ∈ ch.Items, it.Category = "" ∧ it.Comments = "" ∧ it.Creator = "" := by
  obtain ⟨l, items, hl, hm, rfl⟩ := amazonRssFeed_eq_some format r ch h
  refine ⟨rfl, rfl, rfl, rfl, rfl, rfl, rfl, rfl, rfl, rfl, rfl, ?_⟩
  intro it hit
  obtain ⟨i, hi, hsome⟩ := mapItems_mem format r.Items items hm it hit
  obtain ⟨l2, _, rfl⟩ := newAmazonRssItem_eq_some format i it hsome
  exact ⟨rfl, rfl, rfl⟩

/-- C10 witness: the unpopulated fields of the channel and item built from
`feed0`. -/
theorem unpopulated_output_fields_witness :
    ch0.Language = "" ∧ ch0.Ttl = 0 ∧ ch0.TextInput = none
    ∧ it0.Category = "" ∧ it0.Comments = "" ∧ it0.Creator = "" := by
  obtain ⟨h1, _, _, _, _, _, h7, _, _, _, h11, h12⟩ :=
    unpopulated_output_fields fmt0 feed0 ch0 rfl
  obtain ⟨g1, g2, g3⟩ := h12 it0 (by decide)
  exact ⟨h1, h7, h11, g1, g2, g3⟩

end feeds
